import Mathlib

/-!
Shallow embedding of the bugbounty-leaderboard client script.

The repository holds two JavaScript files:
  * src/static/js/script.js (78 lines): modal controller, theme controller,
    card-delegation click handler, cosmetic style injection.
  * src/unnamed/part_000 (54 lines): textually identical to the first 54
    lines of script.js (modal controller and theme controller only).

The embedding models the DOM elements the script touches as explicit record
state, JavaScript truthiness and nullable lookups as Option, and an uncaught
TypeError (dereferencing a null querySelector result) as a thrown result that
still carries the state mutated before the fault.
-/

/-- State of the single modal element and its five text children
(modal-title, modal-details, modal-user, modal-score, modal-time) together
with the modal's CSS display value. -/
structure ModalState where
  titleText : String
  detailsText : String
  userText : String
  scoreText : String
  timeText : String
  display : String
  deriving Repr, DecidableEq

/-- Embedding of `openModal(summary, name, score, time)` (script.js lines 1-8):
writes the five innerText fields and sets the modal display to block. -/
def openModal (summary name score time : String) (m : ModalState) : ModalState :=
  { m with
    titleText := "Action by " ++ name
    detailsText := summary
    userText := name
    scoreText := "+" ++ score ++ " pts"
    timeText := "Time: " ++ time
    display := "block" }

/-- Embedding of the close-control handler (script.js lines 10-12):
sets the modal display to none. -/
def closeControlClick (m : ModalState) : ModalState :=
  { m with display := "none" }

/-- Embedding of `window.onclick` (script.js lines 14-19): hides the modal
exactly when the click target is the modal element itself (the backdrop). -/
def windowOnclick (targetIsModal : Bool) (m : ModalState) : ModalState :=
  if targetIsModal then { m with display := "none" } else m

/-- Embedding of the keydown listener (script.js lines 22-26): hides the
modal when the pressed key is Escape, otherwise does nothing. -/
def keydownHandler (key : String) (m : ModalState) : ModalState :=
  if key = "Escape" then { m with display := "none" } else m

/-- Result of running a handler that may fault with an uncaught TypeError.
A thrown result still carries the state as mutated before the fault, since
statements before the faulting line have already executed. -/
inductive JsResult (α : Type) where
  | ok : α → JsResult α
  | thrown : String → α → JsResult α
  deriving Repr, DecidableEq

/-- The state carried by a result, faulted or not. -/
def JsResult.state : JsResult α → α
  | .ok a => a
  | .thrown _ a => a

/-- Whether the result is an uncaught fault. -/
def JsResult.isThrown : JsResult α → Bool
  | .ok _ => false
  | .thrown _ _ => true

/-- State visible to the theme controller: whether the themeToggle element
and its inner icon element exist on the page, the body's data-theme
attribute (none when unset, as getAttribute returns null), the icon's
className, the localStorage value under key theme (none when absent, as
getItem returns null), and the matchMedia prefers-color-scheme result. -/
structure ThemeState where
  toggleExists : Bool
  iconExists : Bool
  dataTheme : Option String
  iconClass : String
  stored : Option String
  sysPrefersDark : Bool
  deriving Repr, DecidableEq

/-- JavaScript truthiness for strings: every string except the empty string
is truthy. -/
def jsTruthy (s : String) : Bool := s ≠ ""

/-- Embedding of the JavaScript expression `a || b` where a is a nullable
string (null becomes none): yields a when a is a truthy string, else b. -/
def jsOr (a : Option String) (b : String) : String :=
  match a with
  | some s => if jsTruthy s then s else b
  | none => b

/-- Embedding of the theme initialization block (script.js lines 29-40).
Guarded on the themeToggle element existing; resolves
`savedTheme || (systemPrefersDark ? dark : light)`, writes it to the body's
data-theme attribute, then dereferences the inner icon: if the icon element
is absent, `icon.className = ...` faults after data-theme was already set. -/
def themeInit (st : ThemeState) : JsResult ThemeState :=
  if st.toggleExists then
    let currentTheme := jsOr st.stored (if st.sysPrefersDark then "dark" else "light")
    let st1 := { st with dataTheme := some currentTheme }
    if st.iconExists then
      .ok { st1 with iconClass :=
        if currentTheme = "dark" then "fa-solid fa-sun" else "fa-solid fa-moon" }
    else
      .thrown "TypeError: icon is null" st1
  else
    .ok st

/-- Embedding of the themeToggle click handler body (script.js lines 43-52).
The outer test mirrors the guard at line 30: the whole block, registration
included, is skipped when the toggle control is absent. The body reads
data-theme, flips dark to light and anything else to dark, writes the
attribute, then dereferences the icon (faulting if absent, with data-theme
already updated), and finally persists the new theme to localStorage.
Whether the addEventListener at line 42 actually executed during page load,
so that a click runs this body at all, is modelled separately by
toggleHandlerRegistered and toggleClickDispatch. -/
def themeToggleClick (st : ThemeState) : JsResult ThemeState :=
  if st.toggleExists then
    let currentTheme := st.dataTheme
    let newTheme := if currentTheme = some "dark" then "light" else "dark"
    let st1 := { st with dataTheme := some newTheme }
    if st.iconExists then
      let st2 := { st1 with iconClass :=
        if newTheme = "dark" then "fa-solid fa-sun" else "fa-solid fa-moon" }
      .ok { st2 with stored := some newTheme }
    else
      .thrown "TypeError: icon is null" st1
  else
    .ok st

/-- Whether the addEventListener at script.js line 42 executed during page
load: the guarded block at line 30 was entered (the toggle control exists)
and the icon dereference at line 40 did not throw first. An uncaught fault
at line 40 halts the script, so line 42 never runs and no toggle click
handler is registered. -/
def toggleHandlerRegistered (st : ThemeState) : Bool :=
  st.toggleExists && !(themeInit st).isThrown

/-- Dispatch of a click on the toggle control: the handler body runs only
when the addEventListener at script.js line 42 actually executed; otherwise
no handler exists and the click does nothing. -/
def toggleClickDispatch (registered : Bool) (st : ThemeState) : JsResult ThemeState :=
  if registered then themeToggleClick st else .ok st

/-- Theme state after initialization followed by n runs of the toggle
handler body, taking the state as mutated even across an uncaught fault.
On an icon-absent page the real script registers no toggle handler, so
iterating the body unconditionally only enlarges the reachable set of
states; the invariant proved about this function is sound for the real
program. -/
def themeAfter (st : ThemeState) : Nat → ThemeState
  | 0 => (themeInit st).state
  | n + 1 => (themeToggleClick (themeAfter st n)).state

/-- A DOM element as seen by the card-delegation handler: whether it carries
the action-card-modern class, and its four dataset attributes (none when
the attribute is absent, in which case dataset access yields undefined). -/
structure DomElement where
  isActionCard : Bool
  dataSummary : Option String
  dataUser : Option String
  dataScore : Option String
  dataTime : Option String
  deriving Repr, DecidableEq

/-- JavaScript stringification of a possibly-undefined dataset value when it
is assigned to innerText or interpolated: undefined renders as the literal
string undefined. -/
def jsUndef (o : Option String) : String := o.getD "undefined"

/-- Embedding of `event.target.closest(".action-card-modern")` on the chain
from the click target up through its ancestors (target first): the nearest
element carrying the action-card marker, or none. -/
def closestActionCard (chain : List DomElement) : Option DomElement :=
  chain.find? (·.isActionCard)

/-- The openModal invocations performed by the card-delegation click handler
(script.js lines 57-70) for a click whose target-to-root chain is given:
one call with the nearest card's four dataset fields, or no call at all. -/
def cardClickInvocations (chain : List DomElement) :
    List (String × String × String × String) :=
  match closestActionCard chain with
  | some card =>
      [(jsUndef card.dataSummary, jsUndef card.dataUser,
        jsUndef card.dataScore, jsUndef card.dataTime)]
  | none => []

/-- Effect of the card-delegation click handler on the modal state. -/
def cardClickHandler (chain : List DomElement) (m : ModalState) : ModalState :=
  match closestActionCard chain with
  | some card =>
      openModal (jsUndef card.dataSummary) (jsUndef card.dataUser)
        (jsUndef card.dataScore) (jsUndef card.dataTime) m
  | none => m

/-- Combined state of the page as touched by the script: the modal
controller's state and the theme controller's state. -/
structure AppState where
  modal : ModalState
  theme : ThemeState
  deriving Repr, DecidableEq

/-- A document-level click event: the chain from the click target upward,
and whether the target is the modal element itself. -/
structure ClickEvent where
  chain : List DomElement
  targetIsModal : Bool
  deriving Repr, DecidableEq

/-- openModal lifted to the combined state: it touches only modal elements. -/
def appOpenModal (summary name score time : String) (a : AppState) : AppState :=
  { a with modal := openModal summary name score time a.modal }

/-- The themeToggle click handler lifted to the combined state: it touches
only the body's data-theme attribute, the icon and localStorage. -/
def appThemeToggleClick (a : AppState) : JsResult AppState :=
  match themeToggleClick a.theme with
  | .ok t => .ok { a with theme := t }
  | .thrown e t => .thrown e { a with theme := t }

/-- Document-level click dispatch of script.js: the body card-delegation
listener (lines 57-70) runs during the bubble phase, then window.onclick
(lines 14-19) runs the backdrop check. -/
def scriptJsDocumentClick (ev : ClickEvent) (a : AppState) : AppState :=
  { a with modal := windowOnclick ev.targetIsModal (cardClickHandler ev.chain a.modal) }

namespace Part000

/-- Embedding of `openModal` from src/unnamed/part_000 lines 1-8. -/
def openModal (summary name score time : String) (m : ModalState) : ModalState :=
  { m with
    titleText := "Action by " ++ name
    detailsText := summary
    userText := name
    scoreText := "+" ++ score ++ " pts"
    timeText := "Time: " ++ time
    display := "block" }

/-- Embedding of the close-control handler from part_000 lines 10-12. -/
def closeControlClick (m : ModalState) : ModalState :=
  { m with display := "none" }

/-- Embedding of `window.onclick` from part_000 lines 14-19. -/
def windowOnclick (targetIsModal : Bool) (m : ModalState) : ModalState :=
  if targetIsModal then { m with display := "none" } else m

/-- Embedding of the keydown listener from part_000 lines 22-26. -/
def keydownHandler (key : String) (m : ModalState) : ModalState :=
  if key = "Escape" then { m with display := "none" } else m

/-- Embedding of the theme initialization block from part_000 lines 29-40. -/
def themeInit (st : ThemeState) : JsResult ThemeState :=
  if st.toggleExists then
    let currentTheme := jsOr st.stored (if st.sysPrefersDark then "dark" else "light")
    let st1 := { st with dataTheme := some currentTheme }
    if st.iconExists then
      .ok { st1 with iconClass :=
        if currentTheme = "dark" then "fa-solid fa-sun" else "fa-solid fa-moon" }
    else
      .thrown "TypeError: icon is null" st1
  else
    .ok st

/-- Embedding of the themeToggle click handler from part_000 lines 42-53. -/
def themeToggleClick (st : ThemeState) : JsResult ThemeState :=
  if st.toggleExists then
    let currentTheme := st.dataTheme
    let newTheme := if currentTheme = some "dark" then "light" else "dark"
    let st1 := { st with dataTheme := some newTheme }
    if st.iconExists then
      let st2 := { st1 with iconClass :=
        if newTheme = "dark" then "fa-solid fa-sun" else "fa-solid fa-moon" }
      .ok { st2 with stored := some newTheme }
    else
      .thrown "TypeError: icon is null" st1
  else
    .ok st

/-- Document-level click dispatch of part_000: only window.onclick is
registered at document level; part_000 has no card-delegation listener. -/
def documentClick (ev : ClickEvent) (a : AppState) : AppState :=
  { a with modal := Part000.windowOnclick ev.targetIsModal a.modal }

end Part000

/-! Helper lemmas shared across the theorems. -/

/-- The theme toggle handler never changes which elements exist on the page. -/
theorem themeToggleClick_state_toggleExists (st : ThemeState) :
    ((themeToggleClick st).state).toggleExists = st.toggleExists := by
  cases st with
  | mk t i d c s p => cases t <;> cases i <;> rfl

/-- When the toggle control exists, a toggle click rewrites data-theme to
light exactly when it was dark, and to dark otherwise. -/
theorem themeToggleClick_state_dataTheme (st : ThemeState)
    (h : st.toggleExists = true) :
    ((themeToggleClick st).state).dataTheme
      = some (if st.dataTheme = some "dark" then "light" else "dark") := by
  cases st with
  | mk t i d c s p =>
    cases t with
    | false => exact Bool.noConfusion h
    | true => cases i <;> rfl

/-- When the toggle control exists, initialization keeps the page structure
and sets data-theme to the resolved value savedTheme or-else the system
preference. -/
theorem themeInit_state_fields (st : ThemeState) (h : st.toggleExists = true) :
    ((themeInit st).state).toggleExists = true ∧
    ((themeInit st).state).dataTheme
      = some (jsOr st.stored (if st.sysPrefersDark then "dark" else "light")) := by
  cases st with
  | mk t i d c s p =>
    cases t with
    | false => exact Bool.noConfusion h
    | true => cases i <;> exact ⟨rfl, rfl⟩

/-- With the toggle control present, it stays present after initialization
and any number of toggle clicks. -/
theorem themeAfter_toggleExists (st : ThemeState) (h : st.toggleExists = true) :
    ∀ n, (themeAfter st n).toggleExists = true := by
  intro n
  induction n with
  | zero => exact (themeInit_state_fields st h).1
  | succ n ih =>
    show ((themeToggleClick (themeAfter st n)).state).toggleExists = true
    rw [themeToggleClick_state_toggleExists]
    exact ih

/-! Theorems for the claims. -/

/-- C1: openModal followed by reading the five display fields yields
title "Action by user", details = summary, displayed user = user,
displayed score "+score pts", displayed time "Time: time", and the modal
shown (display block), for every input tuple and every prior modal state. -/
theorem open_modal_sets_display_fields
    (summary user score time : String) (m : ModalState) :
    (openModal summary user score time m).titleText = "Action by " ++ user ∧
    (openModal summary user score time m).detailsText = summary ∧
    (openModal summary user score time m).userText = user ∧
    (openModal summary user score time m).scoreText = "+" ++ score ++ " pts" ∧
    (openModal summary user score time m).timeText = "Time: " ++ time ∧
    (openModal summary user score time m).display = "block" :=
  ⟨rfl, rfl, rfl, rfl, rfl, rfl⟩

/-- C2: after any open, each of the three close triggers — the close
control, a click whose target is the modal element itself (backdrop), and
the Escape key — leaves the modal hidden (display none). -/
theorem close_triggers_hide_modal
    (summary user score time : String) (m : ModalState) :
    (closeControlClick (openModal summary user score time m)).display = "none" ∧
    (windowOnclick true (openModal summary user score time m)).display = "none" ∧
    (keydownHandler "Escape" (openModal summary user score time m)).display = "none" :=
  ⟨rfl, rfl, rfl⟩

/-- C3: from a state whose data-theme is light or dark, on a page with the
toggle control and its icon, toggling twice restores the original
data-theme, and after each single toggle the persisted theme value equals
the displayed data-theme. -/
theorem theme_toggle_twice_and_persistence (st : ThemeState)
    (htog : st.toggleExists = true) (hicon : st.iconExists = true)
    (hdt : st.dataTheme = some "light" ∨ st.dataTheme = some "dark") :
    ((themeToggleClick st).state).stored = ((themeToggleClick st).state).dataTheme ∧
    ((themeToggleClick ((themeToggleClick st).state)).state).stored
      = ((themeToggleClick ((themeToggleClick st).state)).state).dataTheme ∧
    ((themeToggleClick ((themeToggleClick st).state)).state).dataTheme
      = st.dataTheme := by
  cases st with
  | mk t i d c s p =>
    cases t with
    | false => exact Bool.noConfusion htog
    | true =>
      cases i with
      | false => exact Bool.noConfusion hicon
      | true =>
        rcases hdt with h | h <;> subst h <;> exact ⟨rfl, rfl, rfl⟩

/-- Witness for C3 at a concrete light-theme state. -/
theorem theme_toggle_twice_and_persistence_witness :
    (ThemeState.mk true true (some "light") "fa-solid fa-moon" none false).toggleExists = true ∧
    ((themeToggleClick (ThemeState.mk true true (some "light") "fa-solid fa-moon" none false)).state).stored
      = ((themeToggleClick (ThemeState.mk true true (some "light") "fa-solid fa-moon" none false)).state).dataTheme ∧
    ((themeToggleClick ((themeToggleClick (ThemeState.mk true true (some "light") "fa-solid fa-moon" none false)).state)).state).stored
      = ((themeToggleClick ((themeToggleClick (ThemeState.mk true true (some "light") "fa-solid fa-moon" none false)).state)).state).dataTheme ∧
    ((themeToggleClick ((themeToggleClick (ThemeState.mk true true (some "light") "fa-solid fa-moon" none false)).state)).state).dataTheme
      = (ThemeState.mk true true (some "light") "fa-solid fa-moon" none false).dataTheme :=
  ⟨rfl, theme_toggle_twice_and_persistence _ rfl rfl (Or.inl rfl)⟩

/-- C4: with the toggle control present and the stored preference either
absent or a valid theme, initialization resolves data-theme to dark exactly
when the stored value is dark or the store is empty and the system prefers
dark, and to light exactly otherwise. -/
theorem theme_init_resolution (st : ThemeState)
    (htog : st.toggleExists = true)
    (hst : st.stored = none ∨ st.stored = some "light" ∨ st.stored = some "dark") :
    (((themeInit st).state).dataTheme = some "dark" ↔
      (st.stored = some "dark" ∨ (st.stored = none ∧ st.sysPrefersDark = true))) ∧
    (((themeInit st).state).dataTheme = some "light" ↔
      (st.stored = some "light" ∨ (st.stored = none ∧ st.sysPrefersDark = false))) := by
  rw [(themeInit_state_fields st htog).2]
  rcases hst with h | h | h <;> rw [h] <;>
    cases hp : st.sysPrefersDark <;> exact ⟨by decide, by decide⟩

/-- Witness for C4 at empty store with system dark preference. -/
theorem theme_init_resolution_witness :
    (ThemeState.mk true true none "" none true).toggleExists = true ∧
    ((themeInit (ThemeState.mk true true none "" none true)).state).dataTheme = some "dark" :=
  ⟨rfl, ((theme_init_resolution (ThemeState.mk true true none "" none true)
    rfl (Or.inl rfl)).1).2 (Or.inr ⟨rfl, rfl⟩)⟩

/-- C5 counterexample: a click target nested inside an action card carrying
the Did X data, but with a nearer enclosing action card carrying different
data; the handler invokes openModal with the nearer card's data, so it does
not invoke openModal with the Did X tuple. -/
theorem nested_cards_counterexample :
    (∃ e ∈ [DomElement.mk false none none none none,
            DomElement.mk true (some "Other") (some "Bob") (some "7") (some "2024-02-02"),
            DomElement.mk true (some "Did X") (some "Alice") (some "5") (some "2024-01-01")],
        e.isActionCard = true ∧ e.dataSummary = some "Did X" ∧
        e.dataUser = some "Alice" ∧ e.dataScore = some "5" ∧
        e.dataTime = some "2024-01-01") ∧
    cardClickInvocations
        [DomElement.mk false none none none none,
         DomElement.mk true (some "Other") (some "Bob") (some "7") (some "2024-02-02"),
         DomElement.mk true (some "Did X") (some "Alice") (some "5") (some "2024-01-01")]
      ≠ [("Did X", "Alice", "5", "2024-01-01")] := by
  constructor
  · exact ⟨DomElement.mk true (some "Did X") (some "Alice") (some "5") (some "2024-01-01"),
      by decide, rfl, rfl, rfl, rfl, rfl⟩
  · decide

/-- C5 amended: for every click whose nearest action-card ancestor carries
summary Did X, user Alice, score 5, time 2024-01-01, the delegation handler
invokes openModal with exactly that tuple, exactly once. -/
theorem card_click_nearest_card_open (chain : List DomElement) (card : DomElement)
    (hc : closestActionCard chain = some card)
    (h1 : card.dataSummary = some "Did X") (h2 : card.dataUser = some "Alice")
    (h3 : card.dataScore = some "5") (h4 : card.dataTime = some "2024-01-01") :
    cardClickInvocations chain = [("Did X", "Alice", "5", "2024-01-01")] := by
  simp [cardClickInvocations, hc, h1, h2, h3, h4, jsUndef]

/-- Witness for C5 amended: a click directly on a single Did X card. -/
theorem card_click_nearest_card_open_witness :
    closestActionCard [DomElement.mk true (some "Did X") (some "Alice") (some "5") (some "2024-01-01")]
      = some (DomElement.mk true (some "Did X") (some "Alice") (some "5") (some "2024-01-01")) ∧
    cardClickInvocations [DomElement.mk true (some "Did X") (some "Alice") (some "5") (some "2024-01-01")]
      = [("Did X", "Alice", "5", "2024-01-01")] :=
  ⟨by decide, card_click_nearest_card_open
    [DomElement.mk true (some "Did X") (some "Alice") (some "5") (some "2024-01-01")]
    (DomElement.mk true (some "Did X") (some "Alice") (some "5") (some "2024-01-01"))
    (by decide) rfl rfl rfl rfl⟩

/-- C6: a click whose target has no action-card ancestor (itself included)
never invokes openModal through the delegation handler. -/
theorem non_card_click_never_opens (chain : List DomElement)
    (h : ∀ e ∈ chain, e.isActionCard = false) :
    cardClickInvocations chain = [] := by
  have hnone : closestActionCard chain = none := by
    simp only [closestActionCard, List.find?_eq_none]
    intro x hx
    simp [h x hx]
  simp [cardClickInvocations, hnone]

/-- Witness for C6 at a concrete non-card chain. -/
theorem non_card_click_never_opens_witness :
    (∀ e ∈ [DomElement.mk false none none none none], e.isActionCard = false) ∧
    cardClickInvocations [DomElement.mk false none none none none] = [] :=
  ⟨by decide, non_card_click_never_opens _ (by decide)⟩

/-- C7 counterexample: with an arbitrary persisted value (here purple),
initialization writes that value straight into data-theme, so right after
initialization the document theme attribute is neither light nor dark. -/
theorem theme_arbitrary_store_counterexample :
    ¬ ((themeAfter (ThemeState.mk true true none "" (some "purple") false) 0).dataTheme
          = some "light" ∨
       (themeAfter (ThemeState.mk true true none "" (some "purple") false) 0).dataTheme
          = some "dark") := by
  decide

/-- C7 amended: with the toggle control present and the persisted store
content absent or one of light and dark, after initialization and any
number of toggle clicks the document theme attribute is always light or
dark; no other value is reachable. -/
theorem theme_attribute_two_valued (st : ThemeState) (n : Nat)
    (htog : st.toggleExists = true)
    (hst : st.stored = none ∨ st.stored = some "light" ∨ st.stored = some "dark") :
    (themeAfter st n).dataTheme = some "light" ∨
    (themeAfter st n).dataTheme = some "dark" := by
  induction n with
  | zero =>
    show ((themeInit st).state).dataTheme = some "light" ∨
         ((themeInit st).state).dataTheme = some "dark"
    rw [(themeInit_state_fields st htog).2]
    rcases hst with h | h | h <;> rw [h] <;>
      cases hp : st.sysPrefersDark <;> simp [jsOr, jsTruthy]
  | succ n ih =>
    show ((themeToggleClick (themeAfter st n)).state).dataTheme = some "light" ∨
         ((themeToggleClick (themeAfter st n)).state).dataTheme = some "dark"
    rw [themeToggleClick_state_dataTheme _ (themeAfter_toggleExists st htog n)]
    by_cases h : (themeAfter st n).dataTheme = some "dark" <;> simp [h]

/-- Witness for C7 amended: empty store, light system preference, one
toggle click. -/
theorem theme_attribute_two_valued_witness :
    (ThemeState.mk true true none "" none false).toggleExists = true ∧
    ((themeAfter (ThemeState.mk true true none "" none false) 1).dataTheme = some "light" ∨
     (themeAfter (ThemeState.mk true true none "" none false) 1).dataTheme = some "dark") :=
  ⟨rfl, theme_attribute_two_valued (ThemeState.mk true true none "" none false) 1
    rfl (Or.inl rfl)⟩

/-- C8 counterexample: on a click whose target is an action card (and not
the modal backdrop), script.js opens the modal through its card-delegation
listener while part_000, which has no such listener, leaves the page
unchanged; the two files therefore differ in observable behaviour. -/
theorem files_differ_on_card_click :
    scriptJsDocumentClick
        (ClickEvent.mk
          [DomElement.mk true (some "Did X") (some "Alice") (some "5") (some "2024-01-01")]
          false)
        (AppState.mk (ModalState.mk "" "" "" "" "" "none")
          (ThemeState.mk true true (some "light") "fa-solid fa-moon" none false))
      ≠ Part000.documentClick
        (ClickEvent.mk
          [DomElement.mk true (some "Did X") (some "Alice") (some "5") (some "2024-01-01")]
          false)
        (AppState.mk (ModalState.mk "" "" "" "" "" "none")
          (ThemeState.mk true true (some "light") "fa-solid fa-moon" none false)) := by
  decide

/-- C8 amended: every operation defined in both files — modal open, the
three close triggers, theme initialization and the toggle transition — is
behaviourally identical between the two embeddings; only the
card-delegation dispatch (and the cosmetic style injection) of script.js
has no counterpart in part_000. -/
theorem files_shared_ops_equal :
    (∀ summary user score time m,
        openModal summary user score time m = Part000.openModal summary user score time m) ∧
    (∀ m, closeControlClick m = Part000.closeControlClick m) ∧
    (∀ b m, windowOnclick b m = Part000.windowOnclick b m) ∧
    (∀ k m, keydownHandler k m = Part000.keydownHandler k m) ∧
    (∀ st, themeInit st = Part000.themeInit st) ∧
    (∀ st, themeToggleClick st = Part000.themeToggleClick st) :=
  ⟨fun _ _ _ _ _ => rfl, fun _ => rfl, fun _ _ => rfl, fun _ _ => rfl,
   fun _ => rfl, fun _ => rfl⟩

/-- C9: the two controllers do not interfere: openModal leaves the theme
state (data-theme attribute and persisted key) unchanged, and a theme
toggle click leaves the modal state (visibility and all five display
fields) unchanged, fault or not. -/
theorem controllers_do_not_interfere
    (summary user score time : String) (a : AppState) :
    (appOpenModal summary user score time a).theme = a.theme ∧
    ((appThemeToggleClick a).state).modal = a.modal := by
  refine ⟨rfl, ?_⟩
  unfold appThemeToggleClick
  cases themeToggleClick a.theme <;> rfl

/-- C10 counterexample: on a page whose toggle control exists but has no
inner icon, initialization faults at the icon dereference (script.js line
40), which halts the script before the addEventListener at line 42; a
subsequent click on the toggle therefore executes no handler at all — it
is a plain no-op, not a fault — contradicting the claim that every
subsequent toggle transition dereferences the absent icon and faults. -/
theorem icon_absent_subsequent_toggle_counterexample :
    (themeInit (ThemeState.mk true false none "" none false)).isThrown = true ∧
    toggleClickDispatch
        (toggleHandlerRegistered (ThemeState.mk true false none "" none false))
        ((themeInit (ThemeState.mk true false none "" none false)).state)
      = .ok ((themeInit (ThemeState.mk true false none "" none false)).state) := by
  decide

/-- C10 amended: with the toggle control present but its inner icon absent,
initialization dereferences the absent icon and faults; the fault occurs
before the addEventListener line, so the toggle handler is never
registered and every subsequent toggle click executes no handler and is a
no-op rather than a fault; with the toggle control itself absent,
initialization is the guarded no-op and no handler is registered either. -/
theorem icon_absence_fault_and_guard (st st2 s : ThemeState)
    (h1 : st.toggleExists = true) (h2 : st.iconExists = false)
    (h3 : st2.toggleExists = false) :
    (themeInit st).isThrown = true ∧
    toggleHandlerRegistered st = false ∧
    toggleClickDispatch (toggleHandlerRegistered st) s = .ok s ∧
    themeInit st2 = .ok st2 ∧
    toggleClickDispatch (toggleHandlerRegistered st2) s = .ok s := by
  have hthrow : (themeInit st).isThrown = true := by
    unfold themeInit
    rw [if_pos h1, if_neg (by rw [h2]; exact Bool.false_ne_true)]
    rfl
  have hreg : toggleHandlerRegistered st = false := by
    unfold toggleHandlerRegistered
    rw [hthrow]
    simp
  have hreg2 : toggleHandlerRegistered st2 = false := by
    unfold toggleHandlerRegistered
    rw [h3]
    rfl
  refine ⟨hthrow, hreg, ?_, ?_, ?_⟩
  · unfold toggleClickDispatch
    rw [hreg, if_neg Bool.false_ne_true]
  · unfold themeInit
    rw [if_neg (by rw [h3]; exact Bool.false_ne_true)]
  · unfold toggleClickDispatch
    rw [hreg2, if_neg Bool.false_ne_true]

/-- Witness for C10 amended: a page with a toggle but no icon faults at
initialization, registers no handler, and a later toggle click is a no-op;
a page with no toggle control is the guarded no-op. -/
theorem icon_absence_fault_and_guard_witness :
    ((ThemeState.mk true false none "" none false).toggleExists = true ∧
     (ThemeState.mk true false none "" none false).iconExists = false ∧
     (ThemeState.mk false false none "" none false).toggleExists = false) ∧
    ((themeInit (ThemeState.mk true false none "" none false)).isThrown = true ∧
     toggleHandlerRegistered (ThemeState.mk true false none "" none false) = false ∧
     toggleClickDispatch
         (toggleHandlerRegistered (ThemeState.mk true false none "" none false))
         (ThemeState.mk true false none "" none false)
       = .ok (ThemeState.mk true false none "" none false) ∧
     themeInit (ThemeState.mk false false none "" none false)
       = .ok (ThemeState.mk false false none "" none false) ∧
     toggleClickDispatch
         (toggleHandlerRegistered (ThemeState.mk false false none "" none false))
         (ThemeState.mk true false none "" none false)
       = .ok (ThemeState.mk true false none "" none false)) :=
  ⟨⟨rfl, rfl, rfl⟩,
   icon_absence_fault_and_guard (ThemeState.mk true false none "" none false)
     (ThemeState.mk false false none "" none false)
     (ThemeState.mk true false none "" none false) rfl rfl rfl⟩
